import Mathlib

/-!
Shallow embedding of `llama_hub/mondaydotcom/base.py` (the monday.com
reader).  The file defines the `MondayReader` class twice; the second
definition shadows the first.  Both are embedded below: the second,
effective definition under `Monday`, the first, shadowed one as
`Monday.V1.load_data`.

Python values appearing in API responses are modelled by the inductive
`Json`; Python runtime failures (KeyError, IndexError, TypeError,
AssertionError, UnboundLocalError) by `PyError`, and every partial
operation returns `Except PyError _`.  The HTTP transport and JSON
parsing are external collaborators: `requests.post(...).json()` is
modelled by an oracle `http : Query → Json` mapping the GraphQL query
that `_perform_request` builds to the decoded response body, and
`json.loads` applied to a block's `content` string is modelled as the
identity on the already-decoded embedded value.
-/

namespace Monday

/-- A decoded JSON / Python value as it appears in an API response. -/
inductive Json where
  | null : Json
  | bool : Bool → Json
  | num : Int → Json
  | str : String → Json
  | arr : List Json → Json
  | obj : List (String × Json) → Json

/-- Python runtime errors that the reader's code can raise. -/
inductive PyError where
  | assertionError : String → PyError
  | keyError : String → PyError
  | indexError : PyError
  | typeError : PyError
  | unboundLocal : String → PyError
deriving DecidableEq

mutual

/-- Python `repr` of a decoded JSON value (used by `str` on lists and
dicts; the scalar cases follow Python `str`/`repr`). -/
def Json.pyRepr : Json → String
  | .null => "None"
  | .bool true => "True"
  | .bool false => "False"
  | .num n => toString n
  | .str s => "\x27" ++ s ++ "\x27"
  | .arr xs => "[" ++ String.intercalate ", " (pyReprList xs) ++ "]"
  | .obj fs => "\x7b" ++ String.intercalate ", " (pyReprFields fs) ++ "\x7d"

def pyReprList : List Json → List String
  | [] => []
  | x :: xs => Json.pyRepr x :: pyReprList xs

def pyReprFields : List (String × Json) → List String
  | [] => []
  | (k, v) :: fs => ("\x27" ++ k ++ "\x27: " ++ Json.pyRepr v) :: pyReprFields fs

end

/-- Python `str(x)` as used inside an f-string. -/
def Json.pyStr : Json → String
  | .str s => s
  | .num n => toString n
  | .bool true => "True"
  | .bool false => "False"
  | .null => "None"
  | .arr xs => Json.pyRepr (.arr xs)
  | .obj fs => Json.pyRepr (.obj fs)

/-- Python truthiness (`if x:`) of a decoded value. -/
def Json.truthy : Json → Bool
  | .null => false
  | .bool b => b
  | .num n => n != 0
  | .str s => s != ""
  | .arr xs => !xs.isEmpty
  | .obj fs => !fs.isEmpty

/-- Python subscript `x[k]` with a string key: dict lookup, KeyError when
the key is absent, TypeError on a non-dict. -/
def Json.get? : Json → String → Except PyError Json
  | .obj fs, k =>
    match fs.lookup k with
    | some v => .ok v
    | none => .error (.keyError k)
  | _, _ => .error .typeError

/-- Python subscript `x[i]` with a non-negative integer index on a list:
IndexError when out of range, TypeError on a non-list. -/
def Json.idx : Json → Nat → Except PyError Json
  | .arr xs, i =>
    match xs.get? i with
    | some v => .ok v
    | none => .error .indexError
  | _, _ => .error .typeError

/-- Python `needle in container` for a string needle: key test on a dict,
membership on a list, substring test on a string, TypeError otherwise. -/
def Json.pyIn (needle : String) : Json → Except PyError Bool
  | .obj fs => .ok (fs.any fun p => p.1 == needle)
  | .arr xs => .ok (xs.any fun x => match x with | .str s => s == needle | _ => false)
  | .str s => .ok (decide (needle.toList <:+: s.toList))
  | _ => .error .typeError

/-- Python `list(x)` / iteration: a list yields its elements, a string its
characters, a dict its keys; TypeError otherwise. -/
def Json.toIterable : Json → Except PyError (List Json)
  | .arr xs => .ok xs
  | .str s => .ok (s.toList.map fun c => .str (String.singleton c))
  | .obj fs => .ok (fs.map fun p => Json.str p.1)
  | _ => .error .typeError

/-- Python string coercion required by `+` on strings: TypeError when the
operand is not a `str`. -/
def Json.asStr : Json → Except PyError String
  | .str s => .ok s
  | _ => .error .typeError

/-- A `Document(text=..., extra_info=...)` record. -/
structure Document where
  text : String
  extra_info : List (String × Json)

/-- The GraphQL query built by `_perform_request`: the board template
instantiated with a board id, or the doc template with a doc id. -/
inductive Query where
  | boardQuery : Int → Query
  | docQuery : Int → Query
deriving DecidableEq

/-- Result of `_parse_item_values`: the dict
`{"title": cv["title"], "value": cv["text"]}`. -/
structure ItemValue where
  title : Json
  value : Json

/-- Result of `_parse_data`: the dict
`{"id": ..., "name": ..., "values": [...]}`. -/
structure ParsedItem where
  id : Json
  name : Json
  values : List ItemValue

/-- `MondayReader._parse_item_values` (identical in both class
definitions). -/
def _parse_item_values (cv : Json) : Except PyError ItemValue := do
  let title ← cv.get? "title"
  let value ← cv.get? "text"
  return ⟨title, value⟩

/-- `MondayReader._parse_data` (identical in both class definitions):
reads `id`, `name`, then maps `_parse_item_values` over
`list(item["column_values"])`. -/
def _parse_data (item : Json) : Except PyError ParsedItem := do
  let id ← item.get? "id"
  let name ← item.get? "name"
  let cvs ← (← item.get? "column_values").toIterable
  let values ← cvs.mapM _parse_item_values
  return ⟨id, name, values⟩

/-- `json.loads` applied to a block's `content`: JSON decoding is an
external collaborator, and the embedding carries the decoded value in the
`content` field directly, so loading is the identity. -/
def json_loads (content : Json) : Json := content

/-- The per-operation `text` variable computed by the loop body of
`_read_block`: `insert["insert"]`, with `" url: " + link` appended when
an `attributes` dict carrying `link` is present. -/
def insertContribution (insert : Json) : Except PyError String := do
  let text ← insert.get? "insert"
  let hasAttributes ← Json.pyIn "attributes" insert
  if hasAttributes then
    let attributes ← insert.get? "attributes"
    let hasLink ← Json.pyIn "link" attributes
    if hasLink then
      let t ← text.asStr
      let link ← (← attributes.get? "link").asStr
      return t ++ " url: " ++ link
    else
      text.asStr
  else
    text.asStr

/-- `MondayReader._read_block` (second class definition): folds
`block_text = block_text + text + " \t"` over
`json.loads(block["content"])["deltaFormat"]`. -/
def _read_block (block : Json) : Except PyError String := do
  let content ← block.get? "content"
  let deltaFormat_array ← ((json_loads content).get? "deltaFormat")
  let inserts ← deltaFormat_array.toIterable
  inserts.foldlM (fun block_text insert => do
    let text ← insertContribution insert
    return block_text ++ text ++ " \t") ""

/-- `MondayReader._perform_request` (second class definition): two
sequential truthiness-guarded assignments to the local `query` — the doc
query overwrites the board query when both ids are truthy — followed by
the POST; referencing `query` with neither assignment taken raises
UnboundLocalError. -/
def _perform_request (board_id doc_id : Option Int) : Except PyError Query :=
  let q : Option Query := none
  let q : Option Query :=
    match board_id with
    | some b => if b = 0 then q else some (.boardQuery b)
    | none => q
  let q : Option Query :=
    match doc_id with
    | some d => if d = 0 then q else some (.docQuery d)
    | none => q
  match q with
  | some query => .ok query
  | none => .error (.unboundLocal "query")

/-- The f-string accumulation in the board path of `load_data`:
`text = f"name: {...}"` then `text += f", {title}: {value}"` for each
truthy value. -/
def itemText (item : ParsedItem) : String :=
  item.values.foldl
    (fun text iv =>
      if iv.value.truthy then text ++ ", " ++ iv.title.pyStr ++ ": " ++ iv.value.pyStr
      else text)
    ("name: " ++ item.name.pyStr)

/-- The subscript chain `json_response["data"]["boards"][0]` shared by
both class definitions. -/
def firstBoard (json_response : Json) : Except PyError Json := do
  (← (← json_response.get? "data").get? "boards").idx 0

/-- The subscript chain `json_response["data"]["docs"][0]`. -/
def firstDoc (json_response : Json) : Except PyError Json := do
  (← (← json_response.get? "data").get? "docs").idx 0

/-- The board branch of the second `load_data`: reads
`json_response["data"]["boards"][0]`, parses its items and builds one
Document per item with metadata `{board_id, item_id}`. -/
def boardBranch (board_id : Int) (json_response : Json) :
    Except PyError (List Document) := do
  let data ← firstBoard json_response
  let items_array ← data.get? "items"
  let items ← items_array.toIterable
  let parsed_items ← items.mapM _parse_data
  return parsed_items.map fun item =>
    ⟨itemText item, [("board_id", Json.num board_id), ("item_id", item.id)]⟩

/-- The doc branch of the second `load_data`: reads
`json_response["data"]["docs"][0]`, maps `_read_block` over the blocks,
joins the lines with `" \n"` and builds the single Document with metadata
`{doc_id, doc_name, created_by}`. -/
def docBranch (doc_id : Int) (json_response : Json) :
    Except PyError (List Document) := do
  let data ← firstDoc json_response
  let blocks ← (← data.get? "blocks").toIterable
  let lines_arr ← blocks.mapM _read_block
  let doc_text := String.intercalate " \n" lines_arr
  let doc_name ← data.get? "name"
  let created_by ← (← data.get? "created_by").get? "name"
  return [⟨doc_text,
    [("doc_id", Json.num doc_id), ("doc_name", doc_name),
     ("created_by", created_by)]⟩]

/-- The `elif doc_id:` arm (and the fall-through to `return result` with
`result` unassigned) of the second `load_data`. -/
def dispatchDoc (doc_id : Option Int) (json_response : Json) :
    Except PyError (List Document) :=
  match doc_id with
  | some d => if d = 0 then .error (.unboundLocal "result") else docBranch d json_response
  | none => .error (.unboundLocal "result")

/-- The `if board_id: ... elif doc_id: ...` dispatch of the second
`load_data` (Python truthiness: `0` and `None` are falsy). -/
def dispatch (board_id doc_id : Option Int) (json_response : Json) :
    Except PyError (List Document) :=
  match board_id with
  | some b => if b = 0 then dispatchDoc doc_id json_response else boardBranch b json_response
  | none => dispatchDoc doc_id json_response

/-- `MondayReader.load_data` — the second, effective definition: asserts
that at least one id is not None, performs the request, then dispatches
on truthiness of `board_id` / `doc_id`.  `http` is the external
HTTP+JSON collaborator mapping the built query to the decoded response
body. -/
def load_data (board_id doc_id : Option Int) (http : Query → Json) :
    Except PyError (List Document) :=
  if board_id = none ∧ doc_id = none then
    .error (.assertionError "Either board_id or doc_id is required")
  else do
    let query ← _perform_request board_id doc_id
    dispatch board_id doc_id (http query)

namespace V1

/-- `MondayReader._perform_request` of the first, shadowed class
definition: unconditionally builds the board query. -/
def _perform_request (board_id : Int) : Query := .boardQuery board_id

/-- `MondayReader.load_data` of the first, shadowed class definition:
board path only, with the discarded `board_data["name"]` subscript (a
KeyError when `name` is absent) before parsing the items. -/
def load_data (board_id : Int) (http : Query → Json) :
    Except PyError (List Document) := do
  let board_data ← firstBoard (http (_perform_request board_id))
  let _ ← board_data.get? "name"
  let items_array ← (← board_data.get? "items").toIterable
  let parsed_items ← items_array.mapM _parse_data
  return parsed_items.map fun item =>
    ⟨itemText item, [("board_id", Json.num board_id), ("item_id", item.id)]⟩

end V1

/-! ### Structured response shapes

Well-formed API responses, as the two GraphQL queries produce them,
described by structured data and embedded into `Json`.  Quantifying over
these shapes expresses "for every board-mode / doc-mode response". -/

/-- A column value of a board item: `{title, text}` as returned by the
board query. -/
structure ColumnValue where
  title : String
  text : String

/-- A board item: `{id, name, column_values}` as returned by the board
query. -/
structure BoardItem where
  id : String
  name : String
  column_values : List ColumnValue

def ColumnValue.toJson (cv : ColumnValue) : Json :=
  .obj [("title", .str cv.title), ("text", .str cv.text)]

def BoardItem.toJson (it : BoardItem) : Json :=
  .obj [("id", .str it.id), ("name", .str it.name),
        ("column_values", .arr (it.column_values.map ColumnValue.toJson))]

/-- A decoded board-query response body: `{"data": {"boards": [board,
...rest]}}` with the first board carrying `name` and `items`. -/
def mkBoardResponse (boardName : String) (items : List BoardItem)
    (rest : List Json) : Json :=
  .obj [("data", .obj [("boards", .arr
    (Json.obj [("name", .str boardName),
               ("items", .arr (items.map BoardItem.toJson))] :: rest))])]

/-- A delta insert operation: its text and an optional link attribute. -/
structure InsertOp where
  insert : String
  link : Option String

def InsertOp.toJson (op : InsertOp) : Json :=
  .obj (("insert", Json.str op.insert) ::
    match op.link with
    | some l => [("attributes", Json.obj [("link", Json.str l)])]
    | none => [])

/-- A doc block whose decoded `content` carries the given delta
operations. -/
def mkBlock (ops : List InsertOp) : Json :=
  .obj [("id", .str "block"), ("type", .str "normal text"),
        ("content", .obj [("deltaFormat", .arr (ops.map InsertOp.toJson))])]

/-- A decoded doc-query response body: `{"data": {"docs": [doc,
...rest]}}` with the first doc carrying `name`, `blocks` and
`created_by`. -/
def mkDocResponse (docName creator : String) (blocks : List (List InsertOp))
    (rest : List Json) : Json :=
  .obj [("data", .obj [("docs", .arr
    (Json.obj [("name", .str docName),
               ("blocks", .arr (blocks.map mkBlock)),
               ("created_by", .obj [("id", .str "creator-id"),
                                    ("name", .str creator)])] :: rest))])]

/-! ### Expected outputs -/

/-- The per-operation text the code computes: the insert text, with
`" url: <link>"` appended when a link attribute is present. -/
def opContribution (op : InsertOp) : String :=
  match op.link with
  | some l => op.insert ++ " url: " ++ l
  | none => op.insert

/-- The block text the code computes: every operation's text followed by
`" \t"` (a trailing separator after each operation, the last included). -/
def codeBlockText (ops : List InsertOp) : String :=
  String.join (ops.map fun op => opContribution op ++ " \t")

/-- The doc text the code computes: block texts joined with `" \n"`. -/
def codeDocText (blocks : List (List InsertOp)) : String :=
  String.intercalate " \n" (blocks.map codeBlockText)

/-- Modelled from the spec: the block text as the spec words it — the
operations' texts "joined by a tab separator" (no trailing tab). -/
def specBlockText (ops : List InsertOp) : String :=
  String.intercalate "\t" (ops.map opContribution)

/-- Modelled from the spec: the doc text as the spec words it — the
blocks' texts "joined by a newline separator". -/
def specDocText (blocks : List (List InsertOp)) : String :=
  String.intercalate "\n" (blocks.map specBlockText)

/-- The item text the board path produces: `name: <name>` followed by
`, <title>: <value>` for each column whose value is non-empty, in
response order. -/
def expectedItemText (it : BoardItem) : String :=
  "name: " ++ it.name ++
    String.join (it.column_values.filterMap fun cv =>
      if cv.text = "" then none else some (", " ++ cv.title ++ ": " ++ cv.text))

/-- The Document the board path produces for one item. -/
def expectedBoardDoc (board_id : Int) (it : BoardItem) : Document :=
  ⟨expectedItemText it,
   [("board_id", Json.num board_id), ("item_id", Json.str it.id)]⟩

/-- The parsed form `_parse_data` produces for an embedded board item. -/
def parsedOf (it : BoardItem) : ParsedItem :=
  ⟨.str it.id, .str it.name,
   it.column_values.map fun cv => ⟨.str cv.title, .str cv.text⟩⟩

/-! ### General helper lemmas -/

@[simp] theorem ok_bind {α β : Type} (a : α) (f : α → Except PyError β) :
    (Except.ok a >>= f) = f a := rfl

@[simp] theorem error_bind {α β : Type} (e : PyError) (f : α → Except PyError β) :
    ((Except.error e : Except PyError α) >>= f) = Except.error e := rfl

theorem mapM_map_ok {α β γ : Type} (f : β → Except PyError γ) (g : α → β)
    (h : α → γ) (hfg : ∀ x, f (g x) = .ok (h x)) :
    ∀ l : List α, (l.map g).mapM f = .ok (l.map h) := by
  intro l
  induction l with
  | nil => rfl
  | cons x xs ih =>
    simp only [List.map_cons, List.mapM_cons, hfg x, ih, ok_bind]
    rfl

theorem foldl_append_eq (l : List String) :
    ∀ a : String, l.foldl (· ++ ·) a = a ++ l.foldl (· ++ ·) "" := by
  induction l with
  | nil => intro a; simp [String.append_empty]
  | cons s l ih =>
    intro a
    simp only [List.foldl_cons]
    rw [ih (a ++ s), ih ("" ++ s), String.empty_append, String.append_assoc]

theorem join_cons (s : String) (l : List String) :
    String.join (s :: l) = s ++ String.join l := by
  show List.foldl (· ++ ·) "" (s :: l) = s ++ List.foldl (· ++ ·) "" l
  simp only [List.foldl_cons]
  rw [foldl_append_eq l ("" ++ s), String.empty_append]

/-! ### Computation lemmas for the doc path -/

theorem insertContribution_toJson (op : InsertOp) :
    insertContribution op.toJson = .ok (opContribution op) := by
  obtain ⟨t, lk⟩ := op
  cases lk with
  | none => rfl
  | some l => rfl

theorem read_block_fold (ops : List InsertOp) :
    ∀ acc : String,
      List.foldlM
        (fun block_text insert => do
          let text ← insertContribution insert
          return block_text ++ text ++ " \t")
        acc (ops.map InsertOp.toJson) = .ok (acc ++ codeBlockText ops) := by
  induction ops with
  | nil =>
    intro acc
    simp only [List.map_nil, List.foldlM_nil, codeBlockText, String.join, List.foldl_nil,
      String.append_empty]
    rfl
  | cons op ops ih =>
    intro acc
    simp only [List.map_cons, List.foldlM_cons, insertContribution_toJson op, ok_bind,
      pure_bind]
    rw [ih (acc ++ opContribution op ++ " \t")]
    simp only [codeBlockText, List.map_cons, join_cons]
    rw [String.append_assoc acc (opContribution op) " \t",
      String.append_assoc acc (opContribution op ++ " \t") (String.join _)]

theorem read_block_mkBlock (ops : List InsertOp) :
    _read_block (mkBlock ops) = .ok (codeBlockText ops) := by
  show ((Json.arr (ops.map InsertOp.toJson)).toIterable >>= fun inserts =>
      List.foldlM _ "" inserts) = _
  simp only [Json.toIterable, ok_bind]
  rw [read_block_fold ops ""]
  rw [String.empty_append]

theorem docBranch_mk (doc_id : Int) (docName creator : String)
    (blocks : List (List InsertOp)) (rest : List Json) :
    docBranch doc_id (mkDocResponse docName creator blocks rest) =
      .ok [⟨codeDocText blocks,
        [("doc_id", Json.num doc_id), ("doc_name", Json.str docName),
         ("created_by", Json.str creator)]⟩] := by
  show ((blocks.map mkBlock).mapM _read_block >>= fun lines_arr => _) = _
  rw [mapM_map_ok _read_block mkBlock codeBlockText read_block_mkBlock blocks]
  rfl

/-! ### Computation lemmas for the board path -/

theorem parse_item_values_toJson (cv : ColumnValue) :
    _parse_item_values cv.toJson = .ok ⟨.str cv.title, .str cv.text⟩ := rfl

theorem parse_data_toJson (it : BoardItem) :
    _parse_data it.toJson = .ok (parsedOf it) := by
  show ((it.column_values.map ColumnValue.toJson).mapM _parse_item_values >>=
    fun values => _) = _
  rw [mapM_map_ok _parse_item_values ColumnValue.toJson
    (fun cv => (⟨.str cv.title, .str cv.text⟩ : ItemValue)) parse_item_values_toJson]
  rfl

theorem itemText_fold (cvs : List ColumnValue) :
    ∀ acc : String,
      List.foldl
        (fun text iv =>
          if iv.value.truthy then text ++ ", " ++ iv.title.pyStr ++ ": " ++ iv.value.pyStr
          else text)
        acc (cvs.map fun cv => (⟨.str cv.title, .str cv.text⟩ : ItemValue)) =
      acc ++ String.join (cvs.filterMap fun cv =>
        if cv.text = "" then none else some (", " ++ cv.title ++ ": " ++ cv.text)) := by
  induction cvs with
  | nil =>
    intro acc
    simp only [List.map_nil, List.foldl_nil, List.filterMap_nil, String.join,
      List.foldl_nil, String.append_empty]
  | cons cv cvs ih =>
    intro acc
    have happ : ∀ text : String,
        (fun (text : String) (iv : ItemValue) =>
          if iv.value.truthy then text ++ ", " ++ iv.title.pyStr ++ ": " ++ iv.value.pyStr
          else text) text ⟨Json.str cv.title, Json.str cv.text⟩ =
        if cv.text != "" then text ++ ", " ++ cv.title ++ ": " ++ cv.text else text := by
      intro text
      rfl
    simp only [List.map_cons, List.foldl_cons, happ, List.filterMap_cons]
    by_cases hc : cv.text = ""
    · simp only [hc, bne_self_eq_false, Bool.false_eq_true, if_false, if_pos rfl]
      exact ih acc
    · have hbne : (cv.text != "") = true := by simpa using hc
      simp only [hbne, if_true, if_neg hc]
      rw [ih (acc ++ ", " ++ cv.title ++ ": " ++ cv.text), join_cons]
      simp only [String.append_assoc]

theorem itemText_parsedOf (it : BoardItem) :
    itemText (parsedOf it) = expectedItemText it := by
  show List.foldl _ ("name: " ++ it.name) (it.column_values.map _) = _
  rw [itemText_fold it.column_values ("name: " ++ it.name)]
  simp only [expectedItemText, String.append_assoc]

theorem boardBranch_mk (b : Int) (boardName : String) (items : List BoardItem)
    (rest : List Json) :
    boardBranch b (mkBoardResponse boardName items rest) =
      .ok (items.map (expectedBoardDoc b)) := by
  show ((items.map BoardItem.toJson).mapM _parse_data >>= fun parsed_items => _) = _
  rw [mapM_map_ok _parse_data BoardItem.toJson parsedOf parse_data_toJson]
  show Except.ok (List.map _ (items.map parsedOf)) = _
  rw [List.map_map]
  refine congrArg Except.ok (List.map_congr_left fun it _ => ?_)
  show (⟨itemText (parsedOf it),
    [("board_id", Json.num b), ("item_id", (parsedOf it).id)]⟩ : Document) = _
  rw [itemText_parsedOf]
  rfl

/-! ### Dispatch equations for load_data -/

theorem load_data_board_eq (b : Int) (hb : b ≠ 0) (http : Query → Json) :
    load_data (some b) none http = boardBranch b (http (.boardQuery b)) := by
  simp [load_data, _perform_request, dispatch, hb]

theorem load_data_doc_eq (d : Int) (hd : d ≠ 0) (http : Query → Json) :
    load_data none (some d) http = docBranch d (http (.docQuery d)) := by
  simp [load_data, _perform_request, dispatch, dispatchDoc, hd]

theorem load_data_both_eq (b d : Int) (hb : b ≠ 0) (hd : d ≠ 0) (http : Query → Json) :
    load_data (some b) (some d) http = boardBranch b (http (.docQuery d)) := by
  simp [load_data, _perform_request, dispatch, hb, hd]

/-! ### Only the assert raises AssertionError -/

/-- The outcome `r` is not an AssertionError. -/
def notAssert {α : Type} : Except PyError α → Prop
  | .error (.assertionError _) => False
  | _ => True

theorem notAssert_bind {α β : Type} {x : Except PyError α} {f : α → Except PyError β}
    (hx : notAssert x) (hf : ∀ a, notAssert (f a)) : notAssert (x >>= f) := by
  cases x with
  | error e => rw [error_bind]; cases e <;> trivial
  | ok a => rw [ok_bind]; exact hf a

theorem notAssert_get? (j : Json) (k : String) : notAssert (j.get? k) := by
  cases j <;> try trivial
  case obj fs =>
    show notAssert (match fs.lookup k with
      | some v => .ok v
      | none => .error (.keyError k))
    cases fs.lookup k <;> trivial

theorem notAssert_idx (j : Json) (i : Nat) : notAssert (j.idx i) := by
  cases j <;> try trivial
  case arr xs =>
    show notAssert (match xs.get? i with
      | some v => .ok v
      | none => .error .indexError)
    cases xs.get? i <;> trivial

theorem notAssert_pyIn (needle : String) (j : Json) : notAssert (Json.pyIn needle j) := by
  cases j <;> trivial

theorem notAssert_toIterable (j : Json) : notAssert j.toIterable := by
  cases j <;> trivial

theorem notAssert_asStr (j : Json) : notAssert j.asStr := by
  cases j <;> trivial

theorem notAssert_mapM {α β : Type} (f : α → Except PyError β)
    (hf : ∀ x, notAssert (f x)) : ∀ l : List α, notAssert (l.mapM f) := by
  intro l
  induction l with
  | nil => trivial
  | cons x xs ih =>
    rw [List.mapM_cons]
    exact notAssert_bind (hf x) fun y => notAssert_bind ih fun ys => by trivial

theorem notAssert_foldlM {α β : Type} (f : β → α → Except PyError β)
    (hf : ∀ b a, notAssert (f b a)) :
    ∀ (l : List α) (b : β), notAssert (l.foldlM f b) := by
  intro l
  induction l with
  | nil => intro b; trivial
  | cons x xs ih =>
    intro b
    rw [List.foldlM_cons]
    exact notAssert_bind (hf b x) ih

theorem notAssert_parse_item_values (cv : Json) : notAssert (_parse_item_values cv) :=
  notAssert_bind (notAssert_get? cv "title") fun title =>
    notAssert_bind (notAssert_get? cv "text") fun value => by trivial

theorem notAssert_parse_data (item : Json) : notAssert (_parse_data item) :=
  notAssert_bind (notAssert_get? item "id") fun id =>
    notAssert_bind (notAssert_get? item "name") fun name =>
      notAssert_bind (notAssert_get? item "column_values") fun cvsJson =>
        notAssert_bind (notAssert_toIterable cvsJson) fun cvs =>
          notAssert_bind (notAssert_mapM _parse_item_values notAssert_parse_item_values cvs)
            fun values => by trivial

theorem notAssert_insertContribution (insert : Json) :
    notAssert (insertContribution insert) := by
  refine notAssert_bind (notAssert_get? insert "insert") fun text => ?_
  refine notAssert_bind (notAssert_pyIn "attributes" insert) fun hasAttributes => ?_
  cases hasAttributes with
  | false => exact notAssert_asStr text
  | true =>
    refine notAssert_bind (notAssert_get? insert "attributes") fun attributes => ?_
    refine notAssert_bind (notAssert_pyIn "link" attributes) fun hasLink => ?_
    cases hasLink with
    | false => exact notAssert_asStr text
    | true =>
      refine notAssert_bind (notAssert_asStr text) fun t => ?_
      refine notAssert_bind (notAssert_get? attributes "link") fun lk => ?_
      exact notAssert_bind (notAssert_asStr lk) fun link => by trivial

theorem notAssert_read_block (block : Json) : notAssert (_read_block block) := by
  refine notAssert_bind (notAssert_get? block "content") fun content => ?_
  refine notAssert_bind (notAssert_get? (json_loads content) "deltaFormat")
    fun deltaFormat_array => ?_
  refine notAssert_bind (notAssert_toIterable deltaFormat_array) fun inserts => ?_
  refine notAssert_foldlM _ (fun acc insert => ?_) inserts ""
  exact notAssert_bind (notAssert_insertContribution insert) fun text => by trivial

theorem notAssert_firstBoard (j : Json) : notAssert (firstBoard j) :=
  notAssert_bind (notAssert_get? j "data") fun dt =>
    notAssert_bind (notAssert_get? dt "boards") fun bs => notAssert_idx bs 0

theorem notAssert_firstDoc (j : Json) : notAssert (firstDoc j) :=
  notAssert_bind (notAssert_get? j "data") fun dt =>
    notAssert_bind (notAssert_get? dt "docs") fun ds => notAssert_idx ds 0

theorem notAssert_boardBranch (b : Int) (j : Json) : notAssert (boardBranch b j) :=
  notAssert_bind (notAssert_firstBoard j) fun data =>
    notAssert_bind (notAssert_get? data "items") fun items_array =>
      notAssert_bind (notAssert_toIterable items_array) fun items =>
        notAssert_bind (notAssert_mapM _parse_data notAssert_parse_data items)
          fun parsed_items => by trivial

theorem notAssert_docBranch (d : Int) (j : Json) : notAssert (docBranch d j) :=
  notAssert_bind (notAssert_firstDoc j) fun data =>
    notAssert_bind (notAssert_get? data "blocks") fun blocksJson =>
      notAssert_bind (notAssert_toIterable blocksJson) fun blocks =>
        notAssert_bind (notAssert_mapM _read_block notAssert_read_block blocks)
          fun lines_arr =>
            notAssert_bind (notAssert_get? data "name") fun doc_name =>
              notAssert_bind (notAssert_get? data "created_by") fun cb =>
                notAssert_bind (notAssert_get? cb "name") fun created_by => by trivial

theorem notAssert_dispatchDoc (doc_id : Option Int) (j : Json) :
    notAssert (dispatchDoc doc_id j) := by
  cases doc_id with
  | none => trivial
  | some d =>
    show notAssert (if d = 0 then _ else docBranch d j)
    split
    · trivial
    · exact notAssert_docBranch d j

theorem notAssert_dispatch (board_id doc_id : Option Int) (j : Json) :
    notAssert (dispatch board_id doc_id j) := by
  cases board_id with
  | none => exact notAssert_dispatchDoc doc_id j
  | some b =>
    show notAssert (if b = 0 then dispatchDoc doc_id j else boardBranch b j)
    split
    · exact notAssert_dispatchDoc doc_id j
    · exact notAssert_boardBranch b j

theorem notAssert_perform_request (board_id doc_id : Option Int) :
    notAssert (_perform_request board_id doc_id) := by
  unfold _perform_request
  cases board_id <;> cases doc_id <;> try trivial
  all_goals
    first
    | (rename_i d; by_cases hd : d = 0 <;> simp [hd] <;> trivial)
    | (rename_i b d
       by_cases hb : b = 0 <;> by_cases hd : d = 0 <;> simp [hb, hd] <;> trivial)

/-! ### The claims -/

/-- C1, counterexample: a call with both identifiers non-null (`board_id
= 1`, `doc_id = 2`) does not fail with the precondition error — it
returns a document list — while the claim says such a call fails it. -/
theorem C1_counterexample :
    load_data (some 1) (some 2) (fun _ => mkBoardResponse "Board" [] []) = .ok [] ∧
    ∀ s, load_data (some 1) (some 2) (fun _ => mkBoardResponse "Board" [] []) ≠
      .error (.assertionError s) := by
  refine ⟨rfl, fun s h => ?_⟩
  rw [show load_data (some 1) (some 2) (fun _ => mkBoardResponse "Board" [] []) =
    Except.ok [] from rfl] at h
  exact Except.noConfusion h

/-- C1, amended: `load_data` fails with the precondition (assertion)
error exactly when both `board_id` and `doc_id` are None; a call with
both non-null passes the assertion (the assert requires at least one,
not exactly one, non-null identifier). -/
theorem C1_precondition_iff (board_id doc_id : Option Int) (http : Query → Json) :
    (∃ s, load_data board_id doc_id http = .error (.assertionError s)) ↔
      board_id = none ∧ doc_id = none := by
  constructor
  · rintro ⟨s, hs⟩
    by_cases hbd : board_id = none ∧ doc_id = none
    · exact hbd
    · exfalso
      unfold load_data at hs
      rw [if_neg hbd] at hs
      have hna :=
        notAssert_bind (notAssert_perform_request board_id doc_id)
          fun query => notAssert_dispatch board_id doc_id (http query)
      rw [hs] at hna
      exact hna
  · rintro ⟨hb, hd⟩
    subst hb
    subst hd
    exact ⟨"Either board_id or doc_id is required", rfl⟩

/-- C2, counterexample: a doc response with one block holding one insert
operation with text `"a"` yields the Document text `"a \t"` — every
operation's text is followed by a space and a tab, the last included —
not the tab-join `"a"` that the claim describes. -/
theorem C2_counterexample :
    load_data none (some 1) (fun _ => mkDocResponse "Doc" "alice" [[⟨"a", none⟩]] []) =
      .ok [⟨"a \t", [("doc_id", Json.num 1), ("doc_name", Json.str "Doc"),
                     ("created_by", Json.str "alice")]⟩] ∧
    specDocText [[⟨"a", none⟩]] = "a" ∧ ("a \t" : String) ≠ "a" :=
  ⟨rfl, rfl, by decide⟩

/-- C2, amended: for every doc-mode response, `load_data` returns exactly
one Document whose text is the blocks' texts joined by `" \n"` (a space
then a newline), where each block's text is the concatenation of its
insert-operations' texts each followed by `" \t"` (a space then a tab, a
trailing separator after every operation, rather than a tab join). -/
theorem C2_doc_text (d : Int) (hd : d ≠ 0) (docName creator : String)
    (blocks : List (List InsertOp)) (rest : List Json) :
    load_data none (some d) (fun _ => mkDocResponse docName creator blocks rest) =
      .ok [⟨codeDocText blocks,
        [("doc_id", Json.num d), ("doc_name", Json.str docName),
         ("created_by", Json.str creator)]⟩] := by
  rw [load_data_doc_eq d hd]
  exact docBranch_mk d docName creator blocks rest

/-- C2, witness at `doc_id = 1` with two blocks. -/
theorem C2_doc_text_witness :
    load_data none (some 1)
      (fun _ => mkDocResponse "D" "bob" [[⟨"a", none⟩], [⟨"b", some "u"⟩]] []) =
      .ok [⟨codeDocText [[⟨"a", none⟩], [⟨"b", some "u"⟩]],
        [("doc_id", Json.num 1), ("doc_name", Json.str "D"),
         ("created_by", Json.str "bob")]⟩] :=
  C2_doc_text 1 (by decide) "D" "bob" [[⟨"a", none⟩], [⟨"b", some "u"⟩]] []

/-- C3: in board mode the text of the Document emitted for each item is
`name: <name>` followed by `, <title>: <value>` for each of the item's
column values whose value is non-empty, in response order, empty values
omitted. -/
theorem C3_board_item_text (b : Int) (hb : b ≠ 0) (boardName : String)
    (items : List BoardItem) (rest : List Json) :
    (load_data (some b) none (fun _ => mkBoardResponse boardName items rest)).map
        (List.map Document.text) =
      .ok (items.map expectedItemText) := by
  rw [load_data_board_eq b hb, boardBranch_mk]
  show Except.ok ((items.map (expectedBoardDoc b)).map Document.text) = _
  rw [List.map_map]
  rfl

/-- C3, witness: one item with an empty and two non-empty columns. -/
theorem C3_board_item_text_witness :
    (load_data (some 3) none (fun _ => mkBoardResponse "B"
        [⟨"9", "row", [⟨"c1", "v1"⟩, ⟨"c2", ""⟩, ⟨"c3", "v3"⟩]⟩] [])).map
        (List.map Document.text) =
      .ok ([⟨"9", "row", [⟨"c1", "v1"⟩, ⟨"c2", ""⟩, ⟨"c3", "v3"⟩]⟩].map
        expectedItemText) :=
  C3_board_item_text 3 (by decide) "B"
    [⟨"9", "row", [⟨"c1", "v1"⟩, ⟨"c2", ""⟩, ⟨"c3", "v3"⟩]⟩] []

/-- C4: `load_data` returns one Document per item of the first board in
board mode (also 0 for a board with no items), and exactly one Document
in doc mode regardless of the number of blocks. -/
theorem C4_document_count :
    (∀ (b : Int) (boardName : String) (items : List BoardItem) (rest : List Json),
        b ≠ 0 →
        (load_data (some b) none (fun _ => mkBoardResponse boardName items rest)).map
          List.length = .ok items.length) ∧
    (∀ (d : Int) (docName creator : String) (blocks : List (List InsertOp))
        (rest : List Json), d ≠ 0 →
        (load_data none (some d) (fun _ => mkDocResponse docName creator blocks rest)).map
          List.length = .ok 1) := by
  constructor
  · intro b boardName items rest hb
    rw [load_data_board_eq b hb, boardBranch_mk]
    show Except.ok (items.map (expectedBoardDoc b)).length = _
    rw [List.length_map]
  · intro d docName creator blocks rest hd
    rw [load_data_doc_eq d hd, docBranch_mk]
    rfl

/-- C5: every board-mode Document's metadata is exactly
`{board_id: <requested id>, item_id: <item's id>}`, and the doc-mode
Document's metadata is exactly `{doc_id, doc_name, created_by: creator's
name}` — so the claimed keys are present with the claimed values. -/
theorem C5_metadata :
    (∀ (b : Int) (boardName : String) (items : List BoardItem) (rest : List Json),
        b ≠ 0 →
        (load_data (some b) none (fun _ => mkBoardResponse boardName items rest)).map
          (List.map Document.extra_info) =
        .ok (items.map fun it =>
          [("board_id", Json.num b), ("item_id", Json.str it.id)])) ∧
    (∀ (d : Int) (docName creator : String) (blocks : List (List InsertOp))
        (rest : List Json), d ≠ 0 →
        (load_data none (some d) (fun _ => mkDocResponse docName creator blocks rest)).map
          (List.map Document.extra_info) =
        .ok [[("doc_id", Json.num d), ("doc_name", Json.str docName),
              ("created_by", Json.str creator)]]) := by
  constructor
  · intro b boardName items rest hb
    rw [load_data_board_eq b hb, boardBranch_mk]
    show Except.ok ((items.map (expectedBoardDoc b)).map Document.extra_info) = _
    rw [List.map_map]
    rfl
  · intro d docName creator blocks rest hd
    rw [load_data_doc_eq d hd, docBranch_mk]
    rfl

/-- C6: the per-operation text appended to a block (the loop's `text`
variable, before the `" \t"` separator) is the insert text followed by
`" url: <link>"` when a link attribute is present, and the insert text
alone when the attributes dict has no `link` key or there is no
attributes dict at all. -/
theorem C6_link_attribute :
    (∀ t l : String,
        insertContribution (Json.obj [("insert", Json.str t),
          ("attributes", Json.obj [("link", Json.str l)])]) =
          .ok (t ++ " url: " ++ l)) ∧
    (∀ (t : String) (attrs : List (String × Json)),
        (∀ p ∈ attrs, p.1 ≠ "link") →
        insertContribution (Json.obj [("insert", Json.str t),
          ("attributes", Json.obj attrs)]) = .ok t) ∧
    (∀ t : String, insertContribution (Json.obj [("insert", Json.str t)]) = .ok t) := by
  refine ⟨fun t l => rfl, ?_, fun t => rfl⟩
  intro t attrs h
  have hany : (attrs.any fun p => p.1 == "link") = false := by
    rw [List.any_eq_false]
    intro p hp
    simpa using h p hp
  show (Except.ok (attrs.any fun p => p.1 == "link") >>= fun hasLink =>
    if hasLink then _ else (Json.str t).asStr) = _
  rw [ok_bind, hany]
  rfl

/-- C7, counterexample: with `board_id = 1` and `doc_id = 2` (both
non-null), the query `_perform_request` builds is the doc GraphQL query
for id 2, not the board query the claim says is built — the second
truthiness-guarded assignment overwrites the first. -/
theorem C7_counterexample :
    _perform_request (some 1) (some 2) = .ok (Query.docQuery 2) ∧
    Query.docQuery 2 ≠ Query.boardQuery 1 :=
  ⟨rfl, by decide⟩

/-- C7, amended: when both identifiers are non-null and nonzero, the
call does not fail on the precondition and `load_data` parses the
response through the board path (the doc parsing path is never taken),
but the GraphQL query actually built and sent is the doc query, because
the doc assignment in `_perform_request` overwrites the board one. -/
theorem C7_both_nonnull (b d : Int) (hb : b ≠ 0) (hd : d ≠ 0) (http : Query → Json) :
    _perform_request (some b) (some d) = .ok (Query.docQuery d) ∧
    load_data (some b) (some d) http = boardBranch b (http (Query.docQuery d)) ∧
    ∀ s, load_data (some b) (some d) http ≠ .error (.assertionError s) := by
  refine ⟨?_, load_data_both_eq b d hb hd http, fun s h => ?_⟩
  · simp [_perform_request, hb, hd]
  · rw [load_data_both_eq b d hb hd http] at h
    have hna := notAssert_boardBranch b (http (Query.docQuery d))
    rw [h] at hna
    exact hna

/-- C7, witness at `board_id = 1`, `doc_id = 2`. -/
theorem C7_both_nonnull_witness :
    _perform_request (some 1) (some 2) = .ok (Query.docQuery 2) ∧
    load_data (some 1) (some 2) (fun _ => Json.null) =
      boardBranch 1 ((fun _ => Json.null) (Query.docQuery 2)) ∧
    ∀ s, load_data (some 1) (some 2) (fun _ => Json.null) ≠
          .error (.assertionError s) :=
  C7_both_nonnull 1 2 (by decide) (by decide) (fun _ => Json.null)

/-- C8: a response body that is an object without the expected key makes
`load_data` fail with the KeyError for that key (`data`, `boards` or
`docs`), and every call either fails with an error or returns a complete
document list — never a partial result. -/
theorem C8_missing_key :
    (∀ (b : Int) (http : Query → Json) (fields : List (String × Json)), b ≠ 0 →
        http (Query.boardQuery b) = Json.obj fields →
        fields.lookup "data" = none →
        load_data (some b) none http = .error (.keyError "data")) ∧
    (∀ (b : Int) (http : Query → Json) (fields g : List (String × Json)), b ≠ 0 →
        http (Query.boardQuery b) = Json.obj fields →
        fields.lookup "data" = some (Json.obj g) →
        g.lookup "boards" = none →
        load_data (some b) none http = .error (.keyError "boards")) ∧
    (∀ (d : Int) (http : Query → Json) (fields : List (String × Json)), d ≠ 0 →
        http (Query.docQuery d) = Json.obj fields →
        fields.lookup "data" = none →
        load_data none (some d) http = .error (.keyError "data")) ∧
    (∀ (d : Int) (http : Query → Json) (fields g : List (String × Json)), d ≠ 0 →
        http (Query.docQuery d) = Json.obj fields →
        fields.lookup "data" = some (Json.obj g) →
        g.lookup "docs" = none →
        load_data none (some d) http = .error (.keyError "docs")) ∧
    (∀ (board_id doc_id : Option Int) (http : Query → Json),
        (∃ e, load_data board_id doc_id http = .error e) ∨
        (∃ docs, load_data board_id doc_id http = .ok docs)) := by
  refine ⟨?_, ?_, ?_, ?_, ?_⟩
  · intro b http fields hb hresp hlk
    rw [load_data_board_eq b hb http, hresp]
    simp [boardBranch, firstBoard, Json.get?, hlk]
  · intro b http fields g hb hresp h1 h2
    rw [load_data_board_eq b hb http, hresp]
    simp [boardBranch, firstBoard, Json.get?, h1, h2]
  · intro d http fields hd hresp hlk
    rw [load_data_doc_eq d hd http, hresp]
    simp [docBranch, firstDoc, Json.get?, hlk]
  · intro d http fields g hd hresp h1 h2
    rw [load_data_doc_eq d hd http, hresp]
    simp [docBranch, firstDoc, Json.get?, h1, h2]
  · intro board_id doc_id http
    cases h : load_data board_id doc_id http with
    | error e => exact Or.inl ⟨e, rfl⟩
    | ok docs => exact Or.inr ⟨docs, rfl⟩

/-- C9, counterexample: at `board_id = 0`, `doc_id = None` the failure is
the UnboundLocalError for the local `query` inside `_perform_request`
(reached before the branch dispatch), not an unbound-variable error at
`return result` as the claim locates it. -/
theorem C9_counterexample :
    load_data (some 0) none (fun _ => Json.null) = .error (.unboundLocal "query") ∧
    load_data (some 0) none (fun _ => Json.null) ≠ .error (.unboundLocal "result") := by
  refine ⟨rfl, fun h => ?_⟩
  rw [show load_data (some 0) none (fun _ => Json.null) =
    Except.error (PyError.unboundLocal "query") from rfl] at h
  injection h with h2
  exact absurd h2 (by decide)

/-- C9, amended: `board_id = 0` with `doc_id = None` (and symmetrically
`doc_id = 0` with `board_id = None`) passes the `!= None` assertion, but
since branch dispatch tests truthiness neither query assignment is
taken, and the call fails with the unbound-variable error for `query` in
`_perform_request` — not with the precondition error. -/
theorem C9_unbound_query (http : Query → Json) :
    load_data (some 0) none http = .error (.unboundLocal "query") ∧
    load_data none (some 0) http = .error (.unboundLocal "query") ∧
    ∀ s, load_data (some 0) none http ≠ .error (.assertionError s) := by
  refine ⟨rfl, rfl, fun s h => ?_⟩
  rw [show load_data (some 0) none http =
    Except.error (PyError.unboundLocal "query") from rfl] at h
  injection h with h2
  exact PyError.noConfusion h2

/-- C10, counterexample: the two `load_data` definitions disagree on the
board path.  At `board_id = 0` the first definition returns the item's
Document while the second fails with the unbound `query` error; and on a
response whose first board lacks the `name` key the first definition
fails with a KeyError (it subscripts `board_data["name"]` and discards
the value) while the second returns the documents. -/
theorem C10_counterexample :
    V1.load_data 0 (fun _ => mkBoardResponse "B" [⟨"1", "item", []⟩] []) =
      .ok [⟨"name: item", [("board_id", Json.num 0), ("item_id", Json.str "1")]⟩] ∧
    load_data (some 0) none (fun _ => mkBoardResponse "B" [⟨"1", "item", []⟩] []) =
      .error (.unboundLocal "query") ∧
    V1.load_data 1 (fun _ => Json.obj [("data", Json.obj [("boards",
      Json.arr [Json.obj [("items", Json.arr [])]])])]) = .error (.keyError "name") ∧
    load_data (some 1) none (fun _ => Json.obj [("data", Json.obj [("boards",
      Json.arr [Json.obj [("items", Json.arr [])]])])]) = .ok [] :=
  ⟨rfl, rfl, rfl, rfl⟩

/-- C10, amended: for every nonzero `board_id` and every response whose
first board object carries the `name` key, the first, shadowed
definition's `load_data` produces exactly the same outcome — the same
Document list with the same texts and metadata, or the same error — as
the second, effective definition's `load_data` called with that
`board_id` and `doc_id = None`. -/
theorem C10_board_equiv (b : Int) (hb : b ≠ 0) (http : Query → Json)
    (hname : ∀ bd, firstBoard (http (Query.boardQuery b)) = .ok bd →
      ∃ v, bd.get? "name" = .ok v) :
    V1.load_data b http = load_data (some b) none http := by
  rw [load_data_board_eq b hb http]
  unfold V1.load_data V1._perform_request boardBranch
  cases hfb : firstBoard (http (Query.boardQuery b)) with
  | error e => rfl
  | ok bd =>
    obtain ⟨v, hv⟩ := hname bd hfb
    simp only [ok_bind]
    rw [hv]
    simp only [ok_bind]

/-- C10, witness at `board_id = 2` on a well-formed board response. -/
theorem C10_board_equiv_witness :
    V1.load_data 2 (fun _ => mkBoardResponse "B2" [⟨"5", "it", [⟨"c", "v"⟩]⟩] []) =
      load_data (some 2) none
        (fun _ => mkBoardResponse "B2" [⟨"5", "it", [⟨"c", "v"⟩]⟩] []) :=
  C10_board_equiv 2 (by decide) _ (by
    intro bd h
    have h2 : Except.ok (Json.obj [("name", Json.str "B2"),
        ("items", Json.arr [BoardItem.toJson ⟨"5", "it", [⟨"c", "v"⟩]⟩])]) =
        Except.ok bd := h
    have h3 := Except.ok.inj h2
    exact ⟨Json.str "B2", by rw [← h3]; rfl⟩)

end Monday
